import Mathlib

/-!
Verification of the deterministic math core of `src/app.py` ("number-bot").

The Python code is shallowly embedded: Python ints are `ℤ`, Python floats are
modelled as exact rationals `ℚ` (the code's float arithmetic is binary IEEE;
all concrete inputs used below are ones where exact rational arithmetic and
IEEE double arithmetic agree), Python `dict` records are Lean structures with
the same field names, a Python function that can raise is
`Except`/`Option`-valued, and a Python function that can fall off the end
without returning (yielding `None`) is `Option`-valued with `none` for that
path.
-/

namespace NumberBot

/-- Scalar values of the untrusted JSON record handed to `apply_math_logic`
(Python `int`, `float`, `bool`, `str`, `None`). -/
inductive PyScalar where
  | int (n : ℤ)
  | float (q : ℚ)
  | bool (b : Bool)
  | str (s : String)
  | null
deriving Repr, DecidableEq

/-- Values produced by `_eval` inside `safe_eval_expression`: numeric Python
values. `bool` is included because in Python `bool` is a subclass of `int`,
so `isinstance(True, (int, float))` holds and the constant check admits it. -/
inductive PyNum where
  | int (n : ℤ)
  | float (q : ℚ)
  | bool (b : Bool)
deriving Repr, DecidableEq

def PyNum.toScalar : PyNum → PyScalar
  | .int n => .int n
  | .float q => .float q
  | .bool b => .bool b

/-- Numeric value of a `PyNum` (Python promotes `bool` to 0/1 in arithmetic). -/
def PyNum.toQ : PyNum → ℚ
  | .int n => (n : ℚ)
  | .float q => q
  | .bool b => if b then 1 else 0

def PyNum.isFloat : PyNum → Bool
  | .float _ => true
  | _ => false

/-- Integer value of a `PyNum` when it is not a float (Python `int`-typed
operands, with `bool` as 0/1). -/
def PyNum.intVal : PyNum → ℤ
  | .int n => n
  | .float q => q.num
  | .bool b => if b then 1 else 0

/-- Error taxonomy of `safe_eval_expression` (spec section 7):
`invalidExpression` is a `SyntaxError` from `ast.parse`,
`unsupportedConstruct` is the `ValueError` raised by `_eval` on any node or
operator outside the allow-list (including non-numeric constants), and
`divisionByZero` is a `ZeroDivisionError` from the arithmetic operators.
`nonIntegerExponent` marks the one place the rational model stops: a float
power with a non-integer exponent (real/complex-valued in Python, and outside
the spec's scope, which fixes integer exponents only). -/
inductive Err where
  | invalidExpression
  | unsupportedConstruct
  | divisionByZero
  | nonIntegerExponent
deriving Repr, DecidableEq

/-- Binary operator node tags of the Python `ast` module that can appear in a
parsed expression (`ALLOWED_BINOPS` covers only the first seven). -/
inductive Bop where
  | add | sub | mul | div | floordiv | mod | pow
  | bitor | bitand | bitxor | lshift | rshift | matmult
deriving Repr, DecidableEq

/-- Unary operator node tags of the Python `ast` module
(`ALLOWED_UNARY` covers only `uadd` and `usub`). -/
inductive Uop where
  | uadd | usub | invert | notOp
deriving Repr, DecidableEq

/-- Membership in `ALLOWED_BINOPS` (src/app.py lines 137-145). -/
def allowedBin : Bop → Bool
  | .add | .sub | .mul | .div | .floordiv | .mod | .pow => true
  | _ => false

/-- Membership in `ALLOWED_UNARY` (src/app.py lines 147-150). -/
def allowedUn : Uop → Bool
  | .uadd | .usub => true
  | _ => false

/-- Python expression AST as produced by `ast.parse(expr, mode="eval")`
(the outer `ast.Expression` wrapper is unwrapped by `_eval` immediately and
is left implicit). Node kinds beyond constants, binary and unary operations,
names, calls and attribute access are collapsed into `other` with their
original kind recorded as a string (e.g. `Compare`, `NamedExpr`, `List`,
`Subscript`, `IfExp`, `Lambda`): `_eval` treats all of them identically,
raising before ever looking at their children. -/
inductive Ast where
  | const (value : PyScalar)
  | binOp (op : Bop) (left right : Ast)
  | unaryOp (op : Uop) (operand : Ast)
  | name (id : String)
  | call (func : Ast) (args : List Ast)
  | attribute (value : Ast) (attr : String)
  | other (kind : String) (children : List Ast)
deriving Repr

/-- Floor of a rational, computed as floor division of numerator by
denominator (kernel-computable, unlike the `FloorRing` instance). -/
def ratFloor (q : ℚ) : ℤ := Int.fdiv q.num q.den

/-- Truncation of a rational toward zero, as Python `int(float)` does. -/
def truncQ (q : ℚ) : ℤ :=
  if 0 ≤ q then ratFloor q else - ratFloor (-q)

/-- Python `//` and `%` on two ints use floor division (`Int.fdiv`/`Int.fmod`).
On floats they are `math.floor(a / b)` and `a - b * floor(a / b)`. -/
def applyBin (op : Bop) (a b : PyNum) : Except Err PyNum :=
  let q1 := a.toQ
  let q2 := b.toQ
  let fl := a.isFloat || b.isFloat
  match op with
  | .add => .ok (if fl then .float (q1 + q2) else .int (a.intVal + b.intVal))
  | .sub => .ok (if fl then .float (q1 - q2) else .int (a.intVal - b.intVal))
  | .mul => .ok (if fl then .float (q1 * q2) else .int (a.intVal * b.intVal))
  | .div =>
    if q2 = 0 then .error .divisionByZero
    else .ok (.float (q1 / q2))
  | .floordiv =>
    if q2 = 0 then .error .divisionByZero
    else .ok (if fl then .float ((⌊q1 / q2⌋ : ℤ) : ℚ) else .int (Int.fdiv a.intVal b.intVal))
  | .mod =>
    if q2 = 0 then .error .divisionByZero
    else .ok (if fl then .float (q1 - q2 * ((⌊q1 / q2⌋ : ℤ) : ℚ)) else .int (Int.fmod a.intVal b.intVal))
  | .pow =>
    if fl then
      if q2.den = 1 then
        if q1 = 0 ∧ q2 < 0 then .error .divisionByZero
        else .ok (.float (q1 ^ q2.num))
      else .error .nonIntegerExponent
    else
      let base := a.intVal
      let e := b.intVal
      if 0 ≤ e then .ok (.int (base ^ e.toNat))
      else if base = 0 then .error .divisionByZero
      else .ok (.float ((base : ℚ) ^ e))
  | _ => .error .unsupportedConstruct

/-- Python `operator.pos` / `operator.neg`; both return an `int` when applied
to a `bool`. -/
def applyUn (op : Uop) (a : PyNum) : Except Err PyNum :=
  match op with
  | .uadd =>
    .ok (match a with
      | .int n => .int n
      | .float q => .float q
      | .bool b => .int (if b then 1 else 0))
  | .usub =>
    .ok (match a with
      | .int n => .int (-n)
      | .float q => .float (-q)
      | .bool b => .int (if b then -1 else 0))
  | _ => .error .unsupportedConstruct

/-- The recursive `_eval` of `safe_eval_expression` (src/app.py lines
160-180). A `Constant` is accepted when `isinstance(value, (int, float))`
holds; in Python this includes `bool` values, which is why `.bool` is
accepted below. Operators are checked against the allow-lists before the
operands are evaluated, exactly as in the source; every other node kind
raises `ValueError` immediately, without its children ever being visited. -/
def evalAst : Ast → Except Err PyNum
  | .const (.int n) => .ok (.int n)
  | .const (.float q) => .ok (.float q)
  | .const (.bool b) => .ok (.bool b)
  | .const (.str _) => .error .unsupportedConstruct
  | .const .null => .error .unsupportedConstruct
  | .binOp op l r =>
    if allowedBin op then do
      let a ← evalAst l
      let b ← evalAst r
      applyBin op a b
    else .error .unsupportedConstruct
  | .unaryOp op e =>
    if allowedUn op then do
      let a ← evalAst e
      applyUn op a
    else .error .unsupportedConstruct
  | .name _ => .error .unsupportedConstruct
  | .call _ _ => .error .unsupportedConstruct
  | .attribute _ _ => .error .unsupportedConstruct
  | .other _ _ => .error .unsupportedConstruct

mutual
/-- The parse contains an identifier, a function call or an attribute access
(possibly nested inside a node kind `_eval` does not evaluate). -/
def hasUnsafe : Ast → Bool
  | .const _ => false
  | .binOp _ l r => hasUnsafe l || hasUnsafe r
  | .unaryOp _ e => hasUnsafe e
  | .name _ => true
  | .call _ _ => true
  | .attribute _ _ => true
  | .other _ cs => hasUnsafeList cs

def hasUnsafeList : List Ast → Bool
  | [] => false
  | a :: rest => hasUnsafe a || hasUnsafeList rest
end

/-- The parse contains a node outside the closed set of spec section 3:
a name, call, attribute access or any `other` node kind, a constant that is
not an `int`/`float` in Python's sense (`str`, `None`; note Python counts
`bool` as `int`), or an operator outside the allow-lists. -/
def hasUnsupported : Ast → Bool
  | .const (.str _) => true
  | .const .null => true
  | .const _ => false
  | .binOp op l r => !allowedBin op || hasUnsupported l || hasUnsupported r
  | .unaryOp op e => !allowedUn op || hasUnsupported e
  | .name _ => true
  | .call _ _ => true
  | .attribute _ _ => true
  | .other _ _ => true

/-! ### Front end: `ast.parse(expr, mode="eval")` on the arithmetic fragment

`safe_eval_expression` delegates parsing to the CPython parser. The model
below implements that parser's documented grammar for the fragment the spec
calls the restricted grammar: decimal numeric literals (integer or
fractional), `+ - * / // % **`, unary `+`/`-` and parentheses, with the
CPython precedence rules (`**` binds more tightly than a unary operator on
its left, and its right operand is a `factor`, so unary operators may appear
in the exponent; `**` is right-associative; everything else associates to
the left). Strings outside this fragment (letters, quotes, brackets, `1e3`
exponents, unicode digits, and the call-juxtaposition form `2(3)`) are not
covered by the string front end; claims about such inputs are stated
directly over the `Ast` type above, which is what CPython hands `_eval`. -/

/-- Tokens of the arithmetic fragment. -/
inductive Token where
  | num (v : PyScalar)
  | plus | minus | star | slash | dslash | percent | dstar | lparen | rparen
deriving Repr, DecidableEq

def digitsToNat (ds : List Char) : ℕ :=
  ds.foldl (fun a c => a * 10 + (c.toNat - 48)) 0

/-- Value of a decimal literal with integer part `ip` and fractional part
`fp` (lists of digit characters). -/
def decimalValue (ip fp : List Char) : ℚ :=
  (digitsToNat ip : ℚ) + (digitsToNat fp : ℚ) / (10 : ℚ) ^ fp.length

def tokenizeAux : ℕ → List Char → Option (List Token)
  | 0, _ => none
  | _ + 1, [] => some []
  | fuel + 1, c :: cs =>
    if c = ' ' ∨ c = '\t' then tokenizeAux fuel cs
    else if c = '(' then (tokenizeAux fuel cs).map (Token.lparen :: ·)
    else if c = ')' then (tokenizeAux fuel cs).map (Token.rparen :: ·)
    else if c = '+' then (tokenizeAux fuel cs).map (Token.plus :: ·)
    else if c = '-' then (tokenizeAux fuel cs).map (Token.minus :: ·)
    else if c = '%' then (tokenizeAux fuel cs).map (Token.percent :: ·)
    else if c = '*' then
      match cs with
      | '*' :: cs2 => (tokenizeAux fuel cs2).map (Token.dstar :: ·)
      | _ => (tokenizeAux fuel cs).map (Token.star :: ·)
    else if c = '/' then
      match cs with
      | '/' :: cs2 => (tokenizeAux fuel cs2).map (Token.dslash :: ·)
      | _ => (tokenizeAux fuel cs).map (Token.slash :: ·)
    else if c.isDigit ∨ c = '.' then
      let ip := (c :: cs).takeWhile Char.isDigit
      let r1 := (c :: cs).dropWhile Char.isDigit
      match r1 with
      | '.' :: r2 =>
        let fp := r2.takeWhile Char.isDigit
        let r3 := r2.dropWhile Char.isDigit
        if ip.isEmpty && fp.isEmpty then none
        else (tokenizeAux fuel r3).map (Token.num (.float (decimalValue ip fp)) :: ·)
      | _ =>
        if ip.isEmpty then none
        else (tokenizeAux fuel r1).map (Token.num (.int (digitsToNat ip)) :: ·)
    else none

def tokenize (s : String) : Option (List Token) :=
  tokenizeAux (s.length + 1) s.toList

mutual
/-- CPython grammar rule sum: `term (("+" | "-") term)*`, left-associative. -/
def parseSum : ℕ → List Token → Option (Ast × List Token)
  | 0, _ => none
  | f + 1, ts => do
    let (l, r) ← parseTerm f ts
    parseSumRest f l r

def parseSumRest : ℕ → Ast → List Token → Option (Ast × List Token)
  | 0, _, _ => none
  | f + 1, acc, Token.plus :: ts => do
    let (r, rest) ← parseTerm f ts
    parseSumRest f (.binOp .add acc r) rest
  | f + 1, acc, Token.minus :: ts => do
    let (r, rest) ← parseTerm f ts
    parseSumRest f (.binOp .sub acc r) rest
  | _ + 1, acc, ts => some (acc, ts)

/-- CPython grammar rule term:
`factor (("*" | "/" | "//" | "%") factor)*`, left-associative. -/
def parseTerm : ℕ → List Token → Option (Ast × List Token)
  | 0, _ => none
  | f + 1, ts => do
    let (l, r) ← parseFactor f ts
    parseTermRest f l r

def parseTermRest : ℕ → Ast → List Token → Option (Ast × List Token)
  | 0, _, _ => none
  | f + 1, acc, Token.star :: ts => do
    let (r, rest) ← parseFactor f ts
    parseTermRest f (.binOp .mul acc r) rest
  | f + 1, acc, Token.slash :: ts => do
    let (r, rest) ← parseFactor f ts
    parseTermRest f (.binOp .div acc r) rest
  | f + 1, acc, Token.dslash :: ts => do
    let (r, rest) ← parseFactor f ts
    parseTermRest f (.binOp .floordiv acc r) rest
  | f + 1, acc, Token.percent :: ts => do
    let (r, rest) ← parseFactor f ts
    parseTermRest f (.binOp .mod acc r) rest
  | _ + 1, acc, ts => some (acc, ts)

/-- CPython grammar rule factor: `("+" | "-") factor | power`. -/
def parseFactor : ℕ → List Token → Option (Ast × List Token)
  | 0, _ => none
  | f + 1, Token.plus :: ts => do
    let (e, r) ← parseFactor f ts
    pure (.unaryOp .uadd e, r)
  | f + 1, Token.minus :: ts => do
    let (e, r) ← parseFactor f ts
    pure (.unaryOp .usub e, r)
  | f + 1, ts => parsePower f ts

/-- CPython grammar rule power: `atom ["**" factor]`. The exponent is a
`factor`, which makes `**` right-associative and lets a unary sign appear in
the exponent, while a unary sign on the left of the base binds more loosely
than `**`. -/
def parsePower : ℕ → List Token → Option (Ast × List Token)
  | 0, _ => none
  | f + 1, ts => do
    let (b, r1) ← parseAtom f ts
    match r1 with
    | Token.dstar :: r2 => do
      let (e, r3) ← parseFactor f r2
      pure (.binOp .pow b e, r3)
    | _ => pure (b, r1)

/-- CPython grammar rule atom (restricted fragment): a numeric literal or a
parenthesized expression. -/
def parseAtom : ℕ → List Token → Option (Ast × List Token)
  | 0, _ => none
  | _ + 1, Token.num v :: ts => some (.const v, ts)
  | f + 1, Token.lparen :: ts => do
    let (e, r) ← parseSum f ts
    match r with
    | Token.rparen :: r2 => some (e, r2)
    | _ => none
  | _, _ => none
end

/-- Parse a complete token stream to an expression. -/
def parseTokens (ts : List Token) : Option Ast :=
  match parseSum (5 * ts.length + 10) ts with
  | some (e, []) => some e
  | _ => none

/-- Model of `ast.parse(expr, mode="eval")` on the arithmetic fragment: a
`SyntaxError` becomes `Err.invalidExpression`. -/
def parse_expression (s : String) : Except Err Ast :=
  match tokenize s with
  | none => .error .invalidExpression
  | some ts =>
    match parseTokens ts with
    | some e => .ok e
    | none => .error .invalidExpression

/-- `safe_eval_expression` (src/app.py lines 153-182): parse, then run the
allow-list evaluator `_eval` on the resulting tree. -/
def safe_eval_expression (s : String) : Except Err PyNum :=
  match parse_expression s with
  | .error e => .error e
  | .ok t => evalAst t

/-! ### Counting (jumps + time), src/app.py lines 188-236 -/

/-- `build_count_sequence` (src/app.py lines 188-203). Returns
`(step_size, sequence_list, is_impossible)`. Python `range(1, n + 1)` is
`(List.range n.toNat).map (fun i => i + 1)`; `range(1, 10)` is
`(List.range 9).map (fun i => i + 1)`; `n // 10` is floor division
(`Int.fdiv`); `seq[-1]` is the last element of the (always nonempty)
generated list. -/
def build_count_sequence (n : ℤ) : ℤ × List ℤ × Bool :=
  if n ≤ 0 then (0, [], true)
  else if n ≤ 10 then (1, (List.range n.toNat).map (fun (i : ℕ) => (i : ℤ) + 1), false)
  else
    let step := max (Int.fdiv n 10) 1
    let seq := (List.range 9).map (fun (i : ℕ) => step * ((i : ℤ) + 1))
    if seq.getLast? = some n then (step, seq, false)
    else (step, seq ++ [n], false)

/-- Python `round`: round half to even (banker's rounding), here on the
exact rational modelling the float. -/
def pyRound (q : ℚ) : ℤ :=
  if q - ratFloor q < 1 / 2 then ratFloor q
  else if 1 / 2 < q - ratFloor q then ratFloor q + 1
  else if ratFloor q % 2 = 0 then ratFloor q else ratFloor q + 1

/-- `estimate_count_time` (src/app.py lines 206-236). `seconds = int(num)`
is the identity here because the caller always passes an int. The float
divisions `seconds / 60.0`, `minutes / 60.0`, `hours / 24.0`, `days / 365.0`
are modelled exactly in `ℚ` and are inlined in place of the Python local
variables. -/
def estimate_count_time (num : ℤ) : ℤ × String :=
  if num ≤ 120 then (num, "about " ++ toString num ++ " seconds")
  else if (num : ℚ) / 60 < 60 then
    (num, "about " ++ toString (pyRound ((num : ℚ) / 60)) ++ " minutes")
  else if (num : ℚ) / 60 / 60 < 48 then
    (num, "about " ++ toString (pyRound ((num : ℚ) / 60 / 60)) ++ " hours")
  else if (num : ℚ) / 60 / 60 / 24 < 365 * 2 then
    (num, "about " ++ toString (pyRound ((num : ℚ) / 60 / 60 / 24)) ++ " days")
  else if (num : ℚ) / 60 / 60 / 24 / 365 < 1000 then
    (num, "about " ++ toString (pyRound ((num : ℚ) / 60 / 60 / 24 / 365)) ++ " years")
  else if (num : ℚ) / 60 / 60 / 24 / 365 < 1000000 then
    (num, "about " ++ toString (pyRound ((num : ℚ) / 60 / 60 / 24 / 365 / 1000)) ++ " thousand years")
  else if (num : ℚ) / 60 / 60 / 24 / 365 < 1000000000 then
    (num, "about " ++ toString (pyRound ((num : ℚ) / 60 / 60 / 24 / 365 / 1000000)) ++ " million years")
  else (num, "longer than the age of the universe")

/-! ### Python string formatting used by `apply_math_logic` -/

/-- Insert a comma after every third character, counting from the end; the
input is the reversed digit string. -/
def groupRev : List Char → List Char
  | a :: b :: c :: d :: rest => a :: b :: c :: ',' :: groupRev (d :: rest)
  | l => l

/-- Python `f"{x:,}"` for an integer: decimal digits in groups of three
separated by commas, with a leading minus sign for negatives. -/
def commaGroup (n : ℤ) : String :=
  (if n < 0 then "-" else "") ++
    String.mk (groupRev (toString n.natAbs).toList.reverse).reverse

/-- Python `str.rstrip(c)`: drop every trailing occurrence of `c`
(structural list implementation, since `String.dropRightWhile` is defined by
well-founded recursion and does not reduce). -/
def rstripChar (c : Char) (s : String) : String :=
  String.mk ((s.toList.reverse.dropWhile (· = c)).reverse)

/-- Python `f"{x:.4f}".rstrip("0").rstrip(".")` on the rational modelling
the float: format the value rounded to four fractional digits (round half
to even, as float formatting does), then strip trailing zeros and a
trailing decimal point. -/
def fmt4 (q : ℚ) : String :=
  let m := pyRound (q * 10000)
  let s := (if q < 0 then "-" else "") ++
    toString (m.natAbs / 10000) ++ "." ++
    (String.mk (List.replicate (4 - (toString (m.natAbs % 10000)).length) '0') ++
      toString (m.natAbs % 10000))
  rstripChar '.' (rstripChar '0' s)

/-- Modelled from the spec: section 4.4 says a non-integer result is shown
as "a decimal truncated to 4 fractional digits with trailing zeros/decimal
point stripped". Same rendering as `fmt4` but with truncation toward zero
in place of rounding, for comparison against what the code computes. -/
def specTrunc4 (q : ℚ) : String :=
  let m := truncQ (q * 10000)
  let s := (if q < 0 then "-" else "") ++
    toString (m.natAbs / 10000) ++ "." ++
    (String.mk (List.replicate (4 - (toString (m.natAbs % 10000)).length) '0') ++
      toString (m.natAbs % 10000))
  rstripChar '.' (rstripChar '0' s)

/-- The result normalization of the Calculate success branch (src/app.py
lines 337-338): a float with integral value is coerced to `int`. -/
def normalizeCalc : PyNum → PyNum
  | .float q => if q.den = 1 then .int q.num else .float q
  | r => r

/-- The screen string of the Calculate success branch (src/app.py lines
344-347): ints (including bools, which Python's `isinstance(result, int)`
admits) are thousands-grouped, other floats go through `.4f` + strips. -/
def calcScreenOf : PyNum → String
  | .int n => commaGroup n
  | .bool b => commaGroup (if b then 1 else 0)
  | .float q => fmt4 q

/-! The untrusted record and `apply_math_logic`, src/app.py lines 302-413 -/

/-- The `_math_logic` sub-object of the untrusted classifier record, after
the `setdefault` block of `apply_math_logic` (absent keys are `none`, absent
`is_impossible` is `false`, absent `sequence` is `[]`, so the defaulting is
the identity in this typed model). -/
structure MathLogic where
  intent : Option String := none
  target_number : Option PyScalar := none
  is_impossible : Bool := false
  step_size : Option PyScalar := none
  unit : Option String := none
  sequence : List PyScalar := []
  time_estimate_seconds : Option PyScalar := none
  time_estimate_text : Option String := none
  visual_aid : Option String := none
  expression : Option String := none
  spoken_problem : Option String := none
deriving Repr, DecidableEq

/-- The outer record exchanged with the classifier and the caller
(`data` in the source; key `_math_logic` is field `math_logic`). -/
structure ChatData where
  text : String := ""
  screen : String := ""
  visual_aid : Option String := none
  math_logic : MathLogic := {}
deriving Repr, DecidableEq

/-- Python `str.strip()` with no argument: drop whitespace from both ends
(structural list implementation; Lean's `String.trim` is defined by
well-founded recursion on byte positions and does not reduce). -/
def pyStrip (s : String) : String :=
  String.mk (((s.toList.dropWhile Char.isWhitespace).reverse.dropWhile
    Char.isWhitespace).reverse)

/-- Python `str.upper()` (ASCII scope, enough for the intent tags). -/
def pyUpper (s : String) : String :=
  String.mk (s.toList.map Char.toUpper)

/-- Python `int(x)` on an untrusted scalar, `none` when it raises
(`TypeError` for `None`, `ValueError` for a non-integer string): an `int`
is returned as is, a `bool` becomes 0/1, a `float` is truncated toward
zero, and a string is parsed as an optionally signed decimal integer
(surrounding whitespace allowed, single underscores between digits
allowed). -/
def parseIntStr (s : String) : Option ℤ :=
  let t := (pyStrip s).toList
  let core := match t with
    | '+' :: r => r
    | '-' :: r => r
    | r => r
  let sign : ℤ := match t with
    | '-' :: _ => -1
    | _ => 1
  if core.isEmpty then none
  else if core.head? = some '_' ∨ core.getLast? = some '_' then none
  else if (core.zip (core.drop 1)).any (fun p => p.1 = '_' ∧ p.2 = '_') then none
  else if core.all (fun c => c.isDigit ∨ c = '_') then
    some (sign * (digitsToNat (core.filter Char.isDigit) : ℤ))
  else none

def pyInt : PyScalar → Option ℤ
  | .int n => some n
  | .bool b => some (if b then 1 else 0)
  | .float q => some (truncQ q)
  | .str s => parseIntStr s
  | .null => none

/-- The spoken problem of the Calculate branch (src/app.py line 317):
`(logic.get("spoken_problem") or transcript).strip()` — Python `or` falls
back to the transcript when the field is absent or the empty string. -/
def spokenOf (data : ChatData) (transcript : String) : String :=
  pyStrip (if data.math_logic.spoken_problem.getD "" = "" then transcript
   else data.math_logic.spoken_problem.getD "")

/-- The fixed apology update of the Calculate failure branches
(src/app.py lines 319-325 and 329-335). -/
def calcFailure (data : ChatData) (logic : MathLogic) : ChatData :=
  { data with
    screen := "I couldn't understand that math problem.",
    text := "I couldn't quite figure out that math problem, but we can try another one!",
    math_logic := { logic with is_impossible := true, sequence := [] } }

/-- The silent failure update of the Count branch (src/app.py lines
360-365 and 367-372): mark impossible, clear the sequence and the screen,
leave `text` and every other field untouched. -/
def countFailure (data : ChatData) (logic : MathLogic) : ChatData :=
  { data with
    screen := "",
    math_logic := { logic with is_impossible := true, sequence := [] } }

/-- `apply_math_logic` (src/app.py lines 302-413), the response
reconciler. The Python function has `return data` statements only inside
the `CALCULATE` and `COUNT` branches; for any other intent (for example
`SMALL_TALK`) control falls off the end of the function and Python returns
`None`, modelled here as `none`. -/
def apply_math_logic (data : ChatData) (transcript : String) : Option ChatData :=
  let logic := data.math_logic
  let intent := pyUpper (logic.intent.getD "")
  if intent = "CALCULATE" then
    let expr := pyStrip (logic.expression.getD "")
    if expr = "" then some (calcFailure data logic)
    else
      match safe_eval_expression expr with
      | .error _ => some (calcFailure data logic)
      | .ok result0 =>
        let result : PyNum := normalizeCalc result0
        let screen := calcScreenOf result
        some { data with
          screen := screen,
          text := "You asked what " ++ spokenOf data transcript ++
            " is. The answer is " ++ screen ++ ".",
          math_logic := { logic with
            target_number := some result.toScalar,
            is_impossible := false,
            sequence := [result.toScalar] } }
  else if intent = "COUNT" then
    match logic.target_number.bind pyInt with
    | none => some (countFailure data logic)
    | some n =>
      if n ≤ 0 then some (countFailure data logic)
      else
        let step_size := (build_count_sequence n).1
        let seq := (build_count_sequence n).2.1
        let is_imp := (build_count_sequence n).2.2
        let seconds := (estimate_count_time n).1
        let time_text := (estimate_count_time n).2
        let strs := if n ≤ 10 then seq.map (fun x => toString x) else seq.map commaGroup
        let screen := String.intercalate ", " strs
        let target_digits := commaGroup n
        let intro :=
          match logic.unit with
          | some u =>
            if u = "" then "Let's jump up to " ++ target_digits ++ "."
            else
              let plural_unit := if n = 1 then u else u ++ "s"
              "Let's jump up to " ++ target_digits ++ " " ++ plural_unit ++ "."
          | none => "Let's jump up to " ++ target_digits ++ "."
        some { data with
          screen := screen,
          text := intro ++ " Our ten jumps are: " ++ screen ++ "." ++
            " If you counted by ones, it would take " ++ time_text ++ ".",
          math_logic := { logic with
            step_size := some (.int step_size),
            sequence := seq.map PyScalar.int,
            is_impossible := is_imp,
            target_number := some (.int n),
            time_estimate_seconds := some (.int seconds),
            time_estimate_text := some time_text } }
  else none

/-! Concrete inputs used by the claim counterexamples and witnesses below. -/

/-- The parse of `"1/0 + open('x')"`: an addition whose left operand divides
by zero and whose right operand is a function call. -/
def divZeroThenCall : Ast :=
  .binOp .add (.binOp .div (.const (.int 1)) (.const (.int 0)))
    (.call (.name "open") [.const (.str "x")])

/-- An untrusted record with SmallTalk intent (the shape `call_brain` itself
produces as its fallback, src/app.py lines 282-298). -/
def smallTalkInput : ChatData :=
  { text := "hi there", screen := "sc",
    math_logic := { intent := some "SMALL_TALK", target_number := some (.int 5) } }

/-- An untrusted record with an unrecognized intent string. -/
def unknownIntentInput : ChatData :=
  { text := "hm", math_logic := { intent := some "GREETING" } }

/-- An untrusted record with no intent at all. -/
def noIntentInput : ChatData :=
  { text := "hm", math_logic := {} }

/-- The `_math_logic` part of `calcWithUntrustedNumbers`. -/
def calcUntrustedLogic : MathLogic where
  intent := some "CALCULATE"
  expression := some "2+2"
  step_size := some (.int 999)
  time_estimate_seconds := some (.int 123)
  time_estimate_text := some "untrusted text"

/-- Calculate intent whose untrusted record also carries classifier-claimed
numeric values in `step_size` / `time_estimate_seconds`. -/
def calcWithUntrustedNumbers : ChatData :=
  { math_logic := calcUntrustedLogic }

/-- The `_math_logic` part of `countFailWithUntrustedNumbers`. -/
def countFailUntrustedLogic : MathLogic where
  intent := some "COUNT"
  target_number := none
  step_size := some (.int 777)
  time_estimate_seconds := some (.int 55)

/-- Count intent with no numeric target but classifier-claimed numeric
values in `step_size` / `time_estimate_seconds` (exercises the failure
branch). -/
def countFailWithUntrustedNumbers : ChatData :=
  { math_logic := countFailUntrustedLogic }

/-- The `_math_logic` part of `calcTwoThirds`. -/
def calcTwoThirdsLogic : MathLogic where
  intent := some "CALCULATE"
  expression := some "2/3"
  spoken_problem := some "two thirds"

/-- Calculate intent whose expression evaluates to the non-integer 2/3. -/
def calcTwoThirds : ChatData :=
  { math_logic := calcTwoThirdsLogic }

/-- Count intent with the fractional target 3.7. -/
def countFractionalTarget : ChatData :=
  { text := "original",
    math_logic := { intent := some "COUNT", target_number := some (.float (37 / 10)) } }

/-- Count intent with the integer target 47 (the end-to-end scenario of
spec section 8). -/
def countTo47 : ChatData :=
  { math_logic := { intent := some "COUNT", target_number := some (.int 47) } }

/-- The parse of `"True"`: a boolean-literal constant. -/
def boolConstAst : Ast := .const (.bool true)

/-- The parse of `"True + True"`. -/
def boolSumAst : Ast := .binOp .add (.const (.bool true)) (.const (.bool true))

/-- A comparison node (e.g. the parse of `"x < 1"`), one of the node kinds
outside the closed set. -/
def compareAst : Ast := .other "Compare" [.name "x", .const (.int 1)]

end NumberBot

namespace NumberBot

/- Batteries marks the rational-number field operations `@[irreducible]`,
which stops the `decide` tactic from evaluating concrete rational
arithmetic during elaboration (the kernel itself reduces them fine). The
concrete witnesses and counterexamples below evaluate the embedded
functions on rational inputs, so restore the default reducibility locally. -/
attribute [local semireducible] Rat.mul Rat.inv Rat.add Rat.sub

/-! Characterizations of `build_count_sequence`, one per source branch. -/

theorem bcs_nonpos (n : ℤ) (h : n ≤ 0) : build_count_sequence n = (0, [], true) := by
  unfold build_count_sequence
  rw [if_pos h]

theorem bcs_le10 (n : ℤ) (h1 : 0 < n) (h2 : n ≤ 10) :
    build_count_sequence n =
      (1, (List.range n.toNat).map (fun (i : ℕ) => (i : ℤ) + 1), false) := by
  unfold build_count_sequence
  rw [if_neg (by omega), if_pos h2]

theorem gen_getLast (s : ℤ) :
    (((List.range 9).map fun (i : ℕ) => s * ((i : ℤ) + 1))).getLast? = some (s * 9) := rfl

theorem bcs_gt10 (n : ℤ) (h : 10 < n) :
    build_count_sequence n =
      (n / 10, ((List.range 9).map fun (i : ℕ) => (n / 10) * ((i : ℤ) + 1)) ++ [n], false) := by
  have hstep : max (Int.fdiv n 10) 1 = n / 10 := by
    rw [Int.fdiv_eq_ediv _ (by norm_num)]
    exact max_eq_left (by omega)
  unfold build_count_sequence
  rw [if_neg (by omega), if_neg (by omega)]
  simp only [hstep]
  rw [gen_getLast, if_neg (by simp only [Option.some.injEq]; omega)]

theorem bcs_not_impossible (n : ℤ) (h : 0 < n) :
    (build_count_sequence n).2.2 = false := by
  by_cases h10 : n ≤ 10
  · rw [bcs_le10 n h h10]
  · rw [bcs_gt10 n (by omega)]

/-- C4: `plan(n)` satisfies the piecewise contract for every integer `n`:
`n ≤ 0` yields step size 0, empty sequence and `isImpossible = true`;
`1 ≤ n ≤ 10` yields step size 1 and the sequence `[1..n]` (stated by length
and elementwise value); `n > 10` yields step size `max(n // 10, 1)` and the
sequence `[step * i for i in 1..9] ++ [n]` (the append always fires), which
has at most 10 elements and ends exactly at `n`. -/
theorem claim_C4 : ∀ n : ℤ,
    (n ≤ 0 → build_count_sequence n = (0, [], true)) ∧
    (1 ≤ n → n ≤ 10 →
      (build_count_sequence n).1 = 1 ∧
      (build_count_sequence n).2.2 = false ∧
      ((build_count_sequence n).2.1).length = n.toNat ∧
      ∀ i (h : i < ((build_count_sequence n).2.1).length),
        ((build_count_sequence n).2.1)[i] = (i : ℤ) + 1) ∧
    (10 < n →
      (build_count_sequence n).1 = max (n / 10) 1 ∧
      (build_count_sequence n).2.1 =
        ((List.range 9).map fun (i : ℕ) => (n / 10) * ((i : ℤ) + 1)) ++ [n] ∧
      (build_count_sequence n).2.2 = false ∧
      ((build_count_sequence n).2.1).length ≤ 10 ∧
      ((build_count_sequence n).2.1).getLast? = some n) := by
  intro n
  refine ⟨fun h => bcs_nonpos n h, fun h1 h2 => ?_, fun h => ?_⟩
  · rw [bcs_le10 n (by omega) h2]
    refine ⟨rfl, rfl, by simp, ?_⟩
    intro i hi
    simp [List.getElem_map, List.getElem_range]
  · rw [bcs_gt10 n h]
    refine ⟨?_, rfl, rfl, Nat.le.refl, rfl⟩
    rw [max_eq_left (by omega : (1:ℤ) ≤ n / 10)]

/-- Witness for C4 at `n = 47`. -/
theorem claim_C4_witness :
    (10 < (47:ℤ)) ∧ ((build_count_sequence 47).2.1).length ≤ 10 ∧
      ((build_count_sequence 47).2.1).getLast? = some 47 :=
  ⟨by norm_num, ((claim_C4 47).2.2 (by norm_num)).2.2.2.1,
    ((claim_C4 47).2.2 (by norm_num)).2.2.2.2⟩

/-- C10: for every `n ≥ 1` the planned sequence is strictly increasing,
starts at a value ≥ 1 and ends exactly at `n`; for every `n > 10` the ninth
generated element `9 * (n / 10)` is strictly below `n`, so the append always
fires and the sequence has exactly 10 elements. -/
theorem claim_C10 : ∀ n : ℤ, 1 ≤ n →
    List.Pairwise (· < ·) (build_count_sequence n).2.1 ∧
    (∃ x, ((build_count_sequence n).2.1).head? = some x ∧ 1 ≤ x) ∧
    ((build_count_sequence n).2.1).getLast? = some n ∧
    (10 < n → 9 * (n / 10) < n ∧ ((build_count_sequence n).2.1).length = 10) := by
  intro n hn
  by_cases h10 : n ≤ 10
  · rw [bcs_le10 n (by omega) h10]
    refine ⟨?_, ⟨1, ?_, le_refl 1⟩, ?_, fun h => absurd h (by omega)⟩
    · refine List.Pairwise.map _ ?_ (List.pairwise_lt_range n.toNat)
      intro a b hab
      omega
    · obtain ⟨k, hk⟩ : ∃ k, n.toNat = k + 1 := ⟨n.toNat - 1, by omega⟩
      rw [hk, List.range_succ_eq_map]
      simp
    · rw [List.getLast?_eq_getElem?, List.length_map, List.length_range,
        List.getElem?_map, List.getElem?_range (by omega)]
      simp only [Option.map_some', Option.some.injEq]
      omega
  · rw [bcs_gt10 n (by omega)]
    have hs : (0:ℤ) < n / 10 := by omega
    refine ⟨?_, ⟨n / 10 * 1, rfl, by omega⟩, rfl, fun _ => ⟨by omega, rfl⟩⟩
    rw [List.pairwise_append]
    refine ⟨?_, List.pairwise_singleton _ _, ?_⟩
    · refine List.Pairwise.map _ ?_ (List.pairwise_lt_range 9)
      intro a b hab
      exact mul_lt_mul_of_pos_left (by omega : ((a:ℤ)+1) < (b:ℤ)+1) hs
    · intro x hx y hy
      simp only [List.mem_singleton] at hy
      obtain ⟨i, hi, rfl⟩ := List.mem_map.mp hx
      have hi9 : i < 9 := List.mem_range.mp hi
      have hle : (n / 10) * ((i:ℤ)+1) ≤ (n / 10) * 9 :=
        mul_le_mul_of_nonneg_left (by omega) (by omega)
      have hlt : 9 * (n / 10) < n := by omega
      rw [hy]
      linarith [hle, hlt]

/-- Witness for C10 at `n = 47`. -/
theorem claim_C10_witness :
    (1 ≤ (47:ℤ)) ∧ List.Pairwise (· < ·) (build_count_sequence 47).2.1 ∧
      ((build_count_sequence 47).2.1).getLast? = some 47 :=
  ⟨by norm_num, (claim_C10 47 (by norm_num)).1, (claim_C10 47 (by norm_num)).2.2.1⟩

/-! Conversions between the float guards of `estimate_count_time` and exact
integer thresholds on the input. -/

theorem guard_minutes (n : ℤ) : ((n:ℚ)/60 < 60) ↔ n < 3600 := by
  rw [div_lt_iff₀ (by norm_num : (0:ℚ) < 60)]
  norm_num
  exact_mod_cast Iff.rfl

theorem guard_hours (n : ℤ) : ((n:ℚ)/60/60 < 48) ↔ n < 172800 := by
  rw [div_div, div_lt_iff₀ (by norm_num : (0:ℚ) < 60*60)]
  norm_num
  exact_mod_cast Iff.rfl

theorem guard_days (n : ℤ) : ((n:ℚ)/60/60/24 < 365 * 2) ↔ n < 63072000 := by
  rw [div_div, div_div, div_lt_iff₀ (by norm_num : (0:ℚ) < 60*(60*24))]
  norm_num
  exact_mod_cast Iff.rfl

theorem guard_years (n : ℤ) : ((n:ℚ)/60/60/24/365 < 1000) ↔ n < 31536000000 := by
  rw [div_div, div_div, div_div, div_lt_iff₀ (by norm_num : (0:ℚ) < 60*(60*(24*365)))]
  norm_num
  exact_mod_cast Iff.rfl

theorem guard_kiloyears (n : ℤ) :
    ((n:ℚ)/60/60/24/365 < 1000000) ↔ n < 31536000000000 := by
  rw [div_div, div_div, div_div, div_lt_iff₀ (by norm_num : (0:ℚ) < 60*(60*(24*365)))]
  norm_num
  exact_mod_cast Iff.rfl

theorem guard_megayears (n : ℤ) :
    ((n:ℚ)/60/60/24/365 < 1000000000) ↔ n < 31536000000000000 := by
  rw [div_div, div_div, div_div, div_lt_iff₀ (by norm_num : (0:ℚ) < 60*(60*(24*365)))]
  norm_num
  exact_mod_cast Iff.rfl

/-- C7: for every integer `n`, `estimate(n)` keeps `seconds = n` unchanged
and `humanText` follows the ordered threshold table: seconds up to 120,
minutes below 3600 s, hours below 48 h (172800 s), days below 2 years
(63072000 s), years below 1000 years (31536000000 s), thousand years below
a million years, million years below a billion years, then "longer than the
age of the universe"; the displayed magnitude is Python `round` (half to
even) of the corresponding float quotient. In particular
`estimate(90).humanText = "about 90 seconds"` and
`estimate(600).humanText = "about 10 minutes"`. -/
theorem claim_C7 : ∀ n : ℤ,
    (estimate_count_time n).1 = n ∧
    (n ≤ 120 → (estimate_count_time n).2 = "about " ++ toString n ++ " seconds") ∧
    (120 < n → n < 3600 →
      (estimate_count_time n).2 = "about " ++ toString (pyRound ((n:ℚ)/60)) ++ " minutes") ∧
    (3600 ≤ n → n < 172800 →
      (estimate_count_time n).2 = "about " ++ toString (pyRound ((n:ℚ)/60/60)) ++ " hours") ∧
    (172800 ≤ n → n < 63072000 →
      (estimate_count_time n).2 = "about " ++ toString (pyRound ((n:ℚ)/60/60/24)) ++ " days") ∧
    (63072000 ≤ n → n < 31536000000 →
      (estimate_count_time n).2 =
        "about " ++ toString (pyRound ((n:ℚ)/60/60/24/365)) ++ " years") ∧
    (31536000000 ≤ n → n < 31536000000000 →
      (estimate_count_time n).2 =
        "about " ++ toString (pyRound ((n:ℚ)/60/60/24/365/1000)) ++ " thousand years") ∧
    (31536000000000 ≤ n → n < 31536000000000000 →
      (estimate_count_time n).2 =
        "about " ++ toString (pyRound ((n:ℚ)/60/60/24/365/1000000)) ++ " million years") ∧
    (31536000000000000 ≤ n →
      (estimate_count_time n).2 = "longer than the age of the universe") ∧
    (estimate_count_time 90).2 = "about 90 seconds" ∧
    (estimate_count_time 600).2 = "about 10 minutes" := by
  intro n
  refine ⟨?_, ?_, ?_, ?_, ?_, ?_, ?_, ?_, ?_, by decide, by decide⟩
  · unfold estimate_count_time
    repeat first | rfl | split
  · intro h1
    unfold estimate_count_time
    rw [if_pos h1]
  · intro h1 h2
    unfold estimate_count_time
    rw [if_neg (by omega), if_pos (by rw [guard_minutes]; omega)]
  · intro h1 h2
    unfold estimate_count_time
    rw [if_neg (by omega), if_neg (by rw [guard_minutes]; omega),
      if_pos (by rw [guard_hours]; omega)]
  · intro h1 h2
    unfold estimate_count_time
    rw [if_neg (by omega), if_neg (by rw [guard_minutes]; omega),
      if_neg (by rw [guard_hours]; omega), if_pos (by rw [guard_days]; omega)]
  · intro h1 h2
    unfold estimate_count_time
    rw [if_neg (by omega), if_neg (by rw [guard_minutes]; omega),
      if_neg (by rw [guard_hours]; omega), if_neg (by rw [guard_days]; omega),
      if_pos (by rw [guard_years]; omega)]
  · intro h1 h2
    unfold estimate_count_time
    rw [if_neg (by omega), if_neg (by rw [guard_minutes]; omega),
      if_neg (by rw [guard_hours]; omega), if_neg (by rw [guard_days]; omega),
      if_neg (by rw [guard_years]; omega), if_pos (by rw [guard_kiloyears]; omega)]
  · intro h1 h2
    unfold estimate_count_time
    rw [if_neg (by omega), if_neg (by rw [guard_minutes]; omega),
      if_neg (by rw [guard_hours]; omega), if_neg (by rw [guard_days]; omega),
      if_neg (by rw [guard_years]; omega), if_neg (by rw [guard_kiloyears]; omega),
      if_pos (by rw [guard_megayears]; omega)]
  · intro h1
    unfold estimate_count_time
    rw [if_neg (by omega), if_neg (by rw [guard_minutes]; omega),
      if_neg (by rw [guard_hours]; omega), if_neg (by rw [guard_days]; omega),
      if_neg (by rw [guard_years]; omega), if_neg (by rw [guard_kiloyears]; omega),
      if_neg (by rw [guard_megayears]; omega)]

/-- Witness for C7 at `n = 600` (the minutes branch). -/
theorem claim_C7_witness :
    (120 < (600:ℤ)) ∧ ((600:ℤ) < 3600) ∧
      (estimate_count_time 600).2 =
        "about " ++ toString (pyRound (((600:ℤ):ℚ)/60)) ++ " minutes" := by
  refine ⟨by norm_num, by norm_num, ?_⟩
  exact (claim_C7 600).2.2.1 (by norm_num) (by norm_num)

/-! Facts about the allow-list evaluator, for C1 and C8. -/

theorem except_bind_error {α β : Type} (e : Err) (f : α → Except Err β) :
    (Except.error e >>= f) = Except.error e := rfl

theorem except_bind_ok {α β : Type} (a : α) (f : α → Except Err β) :
    (Except.ok a >>= f) = f a := rfl

/-- Any tree containing a name, call or attribute node evaluates to an
error: the node itself is rejected outright when reached, and evaluation of
an enclosing tree either reaches it or fails even earlier. -/
theorem hasUnsafe_evals_to_error :
    ∀ t : Ast, hasUnsafe t = true → ∃ e, evalAst t = Except.error e
  | .const v => by simp [hasUnsafe]
  | .binOp op l r => by
    intro h
    simp only [hasUnsafe, Bool.or_eq_true] at h
    by_cases hop : allowedBin op = true
    · rcases h with h | h
      · obtain ⟨e, he⟩ := hasUnsafe_evals_to_error l h
        exact ⟨e, by simp [evalAst, hop, he, except_bind_error]⟩
      · rcases hl : evalAst l with e2 | a
        · exact ⟨e2, by simp [evalAst, hop, hl, except_bind_error]⟩
        · obtain ⟨e, he⟩ := hasUnsafe_evals_to_error r h
          exact ⟨e, by simp [evalAst, hop, hl, he, except_bind_ok, except_bind_error]⟩
    · exact ⟨.unsupportedConstruct, by simp [evalAst, hop]⟩
  | .unaryOp op a => by
    intro h
    simp only [hasUnsafe] at h
    by_cases hop : allowedUn op = true
    · obtain ⟨e, he⟩ := hasUnsafe_evals_to_error a h
      exact ⟨e, by simp [evalAst, hop, he, except_bind_error]⟩
    · exact ⟨.unsupportedConstruct, by simp [evalAst, hop]⟩
  | .name s => fun _ => ⟨.unsupportedConstruct, rfl⟩
  | .call f args => fun _ => ⟨.unsupportedConstruct, rfl⟩
  | .attribute v a => fun _ => ⟨.unsupportedConstruct, rfl⟩
  | .other k cs => fun _ => ⟨.unsupportedConstruct, rfl⟩

/-- Any tree containing a node outside the closed set (with Python's
bool-as-int reading of the constant check) evaluates to an error. -/
theorem hasUnsupported_evals_to_error :
    ∀ t : Ast, hasUnsupported t = true → ∃ e, evalAst t = Except.error e
  | .const (.str s) => fun _ => ⟨.unsupportedConstruct, rfl⟩
  | .const .null => fun _ => ⟨.unsupportedConstruct, rfl⟩
  | .const (.int n) => by simp [hasUnsupported]
  | .const (.float q) => by simp [hasUnsupported]
  | .const (.bool b) => by simp [hasUnsupported]
  | .binOp op l r => by
    intro h
    by_cases hop : allowedBin op = true
    · simp only [hasUnsupported, hop, Bool.not_true, Bool.false_or,
        Bool.or_eq_true] at h
      rcases h with h | h
      · obtain ⟨e, he⟩ := hasUnsupported_evals_to_error l h
        exact ⟨e, by simp [evalAst, hop, he, except_bind_error]⟩
      · rcases hl : evalAst l with e2 | a
        · exact ⟨e2, by simp [evalAst, hop, hl, except_bind_error]⟩
        · obtain ⟨e, he⟩ := hasUnsupported_evals_to_error r h
          exact ⟨e, by simp [evalAst, hop, hl, he, except_bind_ok, except_bind_error]⟩
    · exact ⟨.unsupportedConstruct, by simp [evalAst, hop]⟩
  | .unaryOp op a => by
    intro h
    by_cases hop : allowedUn op = true
    · simp only [hasUnsupported, hop, Bool.not_true, Bool.false_or] at h
      obtain ⟨e, he⟩ := hasUnsupported_evals_to_error a h
      exact ⟨e, by simp [evalAst, hop, he, except_bind_error]⟩
    · exact ⟨.unsupportedConstruct, by simp [evalAst, hop]⟩
  | .name s => fun _ => ⟨.unsupportedConstruct, rfl⟩
  | .call f args => fun _ => ⟨.unsupportedConstruct, rfl⟩
  | .attribute v a => fun _ => ⟨.unsupportedConstruct, rfl⟩
  | .other k cs => fun _ => ⟨.unsupportedConstruct, rfl⟩

/-- C1 counterexample: the parse of `"1/0 + open('x')"` contains a function
call, yet `evaluate` fails with `DivisionByZero`, not `UnsupportedConstruct`:
`_eval` evaluates the left operand of the addition (raising
`ZeroDivisionError`) before it ever looks at the call on the right. -/
theorem claim_C1_counterexample :
    hasUnsafe divZeroThenCall = true ∧
    evalAst divZeroThenCall = Except.error Err.divisionByZero ∧
    Err.divisionByZero ≠ Err.unsupportedConstruct := by
  exact ⟨rfl, rfl, by decide⟩

/-- C1 (amended): for every parse containing an identifier, function call
or attribute access, `evaluate` fails with some error — `UnsupportedConstruct`
unless evaluation of a subterm ordered before the unsafe node fails first
(e.g. with `DivisionByZero`) — and the unsafe node itself is never
evaluated: `_eval` rejects a name, call or attribute node immediately,
without visiting its children, so only numeric literals and allow-listed
binary/unary operations are ever evaluated. -/
theorem claim_C1_amended :
    (∀ t : Ast, hasUnsafe t = true → ∃ e, evalAst t = Except.error e) ∧
    (∀ s, evalAst (Ast.name s) = Except.error Err.unsupportedConstruct) ∧
    (∀ f args, evalAst (Ast.call f args) = Except.error Err.unsupportedConstruct) ∧
    (∀ v a, evalAst (Ast.attribute v a) = Except.error Err.unsupportedConstruct) :=
  ⟨hasUnsafe_evals_to_error, fun _ => rfl, fun _ _ => rfl, fun _ _ => rfl⟩

/-- Witness for C1 at the parse of `"os"` (a bare identifier). -/
theorem claim_C1_witness :
    hasUnsafe (Ast.name "os") = true ∧ ∃ e, evalAst (Ast.name "os") = Except.error e :=
  ⟨rfl, claim_C1_amended.1 (Ast.name "os") rfl⟩

/-- C8 counterexample: a boolean literal is *not* rejected. Python's
`isinstance(value, (int, float))` check accepts `True` because `bool` is a
subclass of `int`, so `evaluate("True")` returns `True` (and
`evaluate("True + True")` returns 2) instead of failing with
`UnsupportedConstruct` as the claim requires for booleans. -/
theorem claim_C8_counterexample :
    evalAst boolConstAst = Except.ok (PyNum.bool true) ∧
    evalAst boolSumAst = Except.ok (PyNum.int 2) ∧
    (Except.ok (PyNum.bool true) : Except Err PyNum) ≠
      Except.error Err.unsupportedConstruct := by
  exact ⟨rfl, rfl, fun h => Except.noConfusion h⟩

/-- C8 (amended): `evaluate` fails with `InvalidExpression` when the string
does not parse (illustrated on unparseable strings, and structurally: a
parse failure always maps to `InvalidExpression`), and every parse
containing a node outside the closed set — string literals, `None`,
comparisons, assignment expressions, names, calls, attribute access,
disallowed operators — evaluates to an error, never passing the node
through; the one exception is a boolean literal, which the
`isinstance(value, (int, float))` check admits because Python `bool` is a
subclass of `int`. -/
theorem claim_C8_amended :
    (∀ t : Ast, hasUnsupported t = true → ∃ e, evalAst t = Except.error e) ∧
    safe_eval_expression "2 +" = Except.error Err.invalidExpression ∧
    safe_eval_expression "" = Except.error Err.invalidExpression ∧
    safe_eval_expression "2 * * 3" = Except.error Err.invalidExpression ∧
    (∀ s ts, tokenize s = some ts → parseTokens ts = none →
      safe_eval_expression s = Except.error Err.invalidExpression) := by
  refine ⟨hasUnsupported_evals_to_error, rfl, rfl, rfl, ?_⟩
  intro s ts h1 h2
  unfold safe_eval_expression parse_expression
  rw [h1]
  simp only [h2]

/-- Witness for C8 at a comparison node (the parse of `"x < 1"`). -/
theorem claim_C8_witness :
    hasUnsupported compareAst = true ∧ ∃ e, evalAst compareAst = Except.error e :=
  ⟨rfl, claim_C8_amended.1 compareAst rfl⟩

/-! Claims about the reconciler `apply_math_logic`. -/

/-- C2 (code bug): `apply_math_logic` has `return data` statements only
inside the CALCULATE and COUNT branches; for the SmallTalk intent, an
unrecognized intent, or a missing intent, control falls off the end of the
function and Python returns `None` instead of the record with the text
fields passed through that the spec requires (the `/chat` handler then
raises `TypeError` at `data["user_text"] = user_text`). -/
theorem claim_C2_code_bug :
    apply_math_logic smallTalkInput "hello" = none ∧
    apply_math_logic unknownIntentInput "hey" = none ∧
    apply_math_logic noIntentInput "hm" = none :=
  ⟨rfl, rfl, rfl⟩

/-- C3 counterexample: the reconciler copies untrusted numeric fields into
its output. On a successful Calculate, the untrusted `step_size = 999`,
`time_estimate_seconds = 123` and `time_estimate_text` survive into the
returned `mathLogic` (only `target_number`/`sequence`/`is_impossible` are
overwritten, here with the computed 4); on the Count failure branch
(`is_impossible := true`), the untrusted `step_size = 777` and
`time_estimate_seconds = 55` likewise pass through. -/
theorem claim_C3_counterexample :
    (apply_math_logic calcWithUntrustedNumbers "t").map
        (fun d => d.math_logic.step_size) = some (some (.int 999)) ∧
    (apply_math_logic calcWithUntrustedNumbers "t").map
        (fun d => d.math_logic.time_estimate_seconds) = some (some (.int 123)) ∧
    (apply_math_logic calcWithUntrustedNumbers "t").map
        (fun d => d.math_logic.time_estimate_text) = some (some "untrusted text") ∧
    (apply_math_logic calcWithUntrustedNumbers "t").map
        (fun d => d.math_logic.target_number) = some (some (.int 4)) ∧
    (apply_math_logic countFailWithUntrustedNumbers "t").map
        (fun d => d.math_logic.step_size) = some (some (.int 777)) ∧
    (apply_math_logic countFailWithUntrustedNumbers "t").map
        (fun d => d.math_logic.time_estimate_seconds) = some (some (.int 55)) ∧
    (apply_math_logic countFailWithUntrustedNumbers "t").map
        (fun d => d.math_logic.is_impossible) = some true :=
  ⟨rfl, rfl, rfl, rfl, rfl, rfl, rfl⟩

/-- C3 (amended): the fields the reconciler overwrites are backend-computed.
On a successful Count, `step_size`, `sequence`, `is_impossible`,
`target_number` and both time-estimate fields equal the outputs of
`build_count_sequence` / `estimate_count_time` on the validated target,
independent of any untrusted numeric field. On a successful Calculate,
`target_number`, `sequence` and `is_impossible` are backend-computed while
`step_size` and the time-estimate fields pass through from the untrusted
input (that pass-through is the correction to the claim). -/
theorem claim_C3_amended :
    (∀ (data : ChatData) (t : String) (n : ℤ),
      pyUpper (data.math_logic.intent.getD "") = "COUNT" →
      data.math_logic.target_number.bind pyInt = some n →
      0 < n →
      ∃ d', apply_math_logic data t = some d' ∧
        d'.math_logic.step_size = some (.int (build_count_sequence n).1) ∧
        d'.math_logic.sequence = ((build_count_sequence n).2.1).map PyScalar.int ∧
        d'.math_logic.is_impossible = (build_count_sequence n).2.2 ∧
        d'.math_logic.target_number = some (.int n) ∧
        d'.math_logic.time_estimate_seconds = some (.int (estimate_count_time n).1) ∧
        d'.math_logic.time_estimate_text = some (estimate_count_time n).2) ∧
    (∀ (data : ChatData) (t : String) (r : PyNum),
      pyUpper (data.math_logic.intent.getD "") = "CALCULATE" →
      pyStrip (data.math_logic.expression.getD "") ≠ "" →
      safe_eval_expression (pyStrip (data.math_logic.expression.getD "")) = Except.ok r →
      ∃ d', apply_math_logic data t = some d' ∧
        d'.math_logic.target_number = some (normalizeCalc r).toScalar ∧
        d'.math_logic.sequence = [(normalizeCalc r).toScalar] ∧
        d'.math_logic.is_impossible = false ∧
        d'.math_logic.step_size = data.math_logic.step_size ∧
        d'.math_logic.time_estimate_seconds = data.math_logic.time_estimate_seconds ∧
        d'.math_logic.time_estimate_text = data.math_logic.time_estimate_text) := by
  constructor
  · intro data t n h1 h2 h3
    simp only [apply_math_logic]
    rw [h1, if_neg (by decide), if_pos rfl, h2]
    dsimp only
    rw [if_neg (by omega : ¬ n ≤ 0)]
    exact ⟨_, rfl, rfl, rfl, rfl, rfl, rfl, rfl⟩
  · intro data t r h1 h2 h3
    simp only [apply_math_logic]
    rw [h1, if_pos rfl, if_neg h2, h3]
    dsimp only
    exact ⟨_, rfl, rfl, rfl, rfl, rfl, rfl, rfl⟩

/-- Witness for C3 at the Count intent with target 47. -/
theorem claim_C3_witness :
    (pyUpper (countTo47.math_logic.intent.getD "") = "COUNT") ∧ ((0:ℤ) < 47) ∧
    ∃ d', apply_math_logic countTo47 "x" = some d' ∧
      d'.math_logic.step_size = some (PyScalar.int (build_count_sequence 47).1) := by
  obtain ⟨d', hd, hstep, -⟩ := claim_C3_amended.1 countTo47 "x" 47 rfl rfl (by norm_num)
  exact ⟨rfl, by norm_num, d', hd, hstep⟩

/-- C5 counterexample: `evaluate("2/3")` succeeds with a non-integer result
and the code formats it by Python `f"{result:.4f}"`, which *rounds* to four
fractional digits — the screen shows `0.6667` — whereas the claim's
"truncated to 4 fractional digits" would produce `0.6666`. -/
theorem claim_C5_counterexample :
    (apply_math_logic calcTwoThirds "x").map ChatData.screen = some "0.6667" ∧
    (apply_math_logic calcTwoThirds "x").map ChatData.text =
      some "You asked what two thirds is. The answer is 0.6667." ∧
    specTrunc4 (2/3 : ℚ) = "0.6666" ∧
    ("0.6667" : String) ≠ "0.6666" :=
  ⟨rfl, rfl, rfl, by decide⟩

/-- C5 (amended): on a successful Calculate with a non-empty expression,
the whole-number-valued float result is coerced to an integer,
`target_number` is the result, `sequence` is the one-element list holding
it, `is_impossible` is false; the screen summary is the thousands-grouped
integer, or for non-integer results the decimal *rounded* (not truncated)
to 4 fractional digits with trailing zeros and trailing decimal point
stripped; and the display text is
"You asked what {spokenProblem} is. The answer is {screenSummary}.". -/
theorem claim_C5_amended :
    ∀ (data : ChatData) (t : String) (r : PyNum),
      pyUpper (data.math_logic.intent.getD "") = "CALCULATE" →
      pyStrip (data.math_logic.expression.getD "") ≠ "" →
      safe_eval_expression (pyStrip (data.math_logic.expression.getD "")) = Except.ok r →
      apply_math_logic data t = some
        { data with
          screen := calcScreenOf (normalizeCalc r),
          text := "You asked what " ++ spokenOf data t ++ " is. The answer is " ++
            calcScreenOf (normalizeCalc r) ++ ".",
          math_logic := { data.math_logic with
            target_number := some (normalizeCalc r).toScalar,
            is_impossible := false,
            sequence := [(normalizeCalc r).toScalar] } } ∧
      (∀ q, r = PyNum.float q → q.den = 1 → normalizeCalc r = PyNum.int q.num) ∧
      (∀ q, r = PyNum.float q → q.den ≠ 1 → calcScreenOf (normalizeCalc r) = fmt4 q) ∧
      (∀ k, r = PyNum.int k → calcScreenOf (normalizeCalc r) = commaGroup k) := by
  intro data t r h1 h2 h3
  refine ⟨?_, ?_, ?_, ?_⟩
  · simp only [apply_math_logic]
    rw [h1, if_pos rfl, if_neg h2, h3]
  · intro q hq hden
    subst hq
    simp only [normalizeCalc, if_pos hden]
  · intro q hq hden
    subst hq
    simp only [normalizeCalc, if_neg hden, calcScreenOf]
  · intro k hk
    subst hk
    rfl

/-- Witness for C5 at the expression `"2/3"`. -/
theorem claim_C5_witness :
    (pyStrip (calcTwoThirds.math_logic.expression.getD "") ≠ "") ∧
    (apply_math_logic calcTwoThirds "x").map ChatData.screen =
      some (calcScreenOf (normalizeCalc (PyNum.float (2/3)))) := by
  have h := claim_C5_amended calcTwoThirds "x" (PyNum.float (2/3)) rfl (by decide) rfl
  refine ⟨by decide, ?_⟩
  rw [h.1]
  rfl

/-- C6 counterexample: a fractional `targetNumber` (3.7) for Count is *not*
marked impossible: Python `int(3.7)` truncates to 3, so the reconciler
counts to 3 (narration and all) instead of setting `isImpossible`, clearing
the sequence and staying silent as the claim requires for non-integer
targets. -/
theorem claim_C6_counterexample :
    (apply_math_logic countFractionalTarget "x").map
        (fun d => d.math_logic.is_impossible) = some false ∧
    (apply_math_logic countFractionalTarget "x").map
        (fun d => d.math_logic.sequence) =
      some [PyScalar.int 1, PyScalar.int 2, PyScalar.int 3] ∧
    (apply_math_logic countFractionalTarget "x").map
        (fun d => d.math_logic.target_number) = some (some (PyScalar.int 3)) ∧
    (apply_math_logic countFractionalTarget "x").map ChatData.screen = some "1, 2, 3" :=
  ⟨rfl, rfl, rfl, rfl⟩

/-- C6 (amended): for the Count intent, when `int(targetNumber)` raises
(absent target, `None`, or a non-numeric string) or the parsed integer is
≤ 0, the reconciler marks the record impossible, clears the sequence, sets
the screen summary to the empty string and returns early with `displayText`
untouched; a fractional numeric `targetNumber`, however, is truncated
toward zero by `int()` and, when the truncation is positive, counting
proceeds normally (that truncation is the correction to the claim). -/
theorem claim_C6_amended :
    ∀ (data : ChatData) (t : String),
      pyUpper (data.math_logic.intent.getD "") = "COUNT" →
      ((data.math_logic.target_number.bind pyInt = none →
        apply_math_logic data t = some (countFailure data data.math_logic) ∧
        (countFailure data data.math_logic).text = data.text ∧
        (countFailure data data.math_logic).screen = "" ∧
        (countFailure data data.math_logic).math_logic.is_impossible = true ∧
        (countFailure data data.math_logic).math_logic.sequence = []) ∧
      (∀ n : ℤ, data.math_logic.target_number.bind pyInt = some n → n ≤ 0 →
        apply_math_logic data t = some (countFailure data data.math_logic) ∧
        (countFailure data data.math_logic).text = data.text ∧
        (countFailure data data.math_logic).screen = "" ∧
        (countFailure data data.math_logic).math_logic.is_impossible = true ∧
        (countFailure data data.math_logic).math_logic.sequence = []) ∧
      (∀ q : ℚ, data.math_logic.target_number = some (.float q) → 0 < truncQ q →
        ∃ d', apply_math_logic data t = some d' ∧
          d'.math_logic.target_number = some (.int (truncQ q)) ∧
          d'.math_logic.is_impossible = false)) := by
  intro data t h1
  refine ⟨?_, ?_, ?_⟩
  · intro h2
    refine ⟨?_, rfl, rfl, rfl, rfl⟩
    simp only [apply_math_logic]
    rw [h1, if_neg (by decide), if_pos rfl, h2]
  · intro n h2 h3
    refine ⟨?_, rfl, rfl, rfl, rfl⟩
    simp only [apply_math_logic]
    rw [h1, if_neg (by decide), if_pos rfl, h2]
    dsimp only
    rw [if_pos h3]
  · intro q h2 h3
    simp only [apply_math_logic]
    rw [h1, if_neg (by decide), if_pos rfl, h2]
    dsimp only [Option.bind, pyInt]
    rw [if_neg (by omega : ¬ truncQ q ≤ 0)]
    refine ⟨_, rfl, rfl, ?_⟩
    exact bcs_not_impossible (truncQ q) h3

/-- Witness for C6 at a Count record whose target is absent. -/
theorem claim_C6_witness :
    (pyUpper (countFailWithUntrustedNumbers.math_logic.intent.getD "") = "COUNT") ∧
    (countFailWithUntrustedNumbers.math_logic.target_number.bind pyInt = none) ∧
    apply_math_logic countFailWithUntrustedNumbers "x" =
      some (countFailure countFailWithUntrustedNumbers
        countFailWithUntrustedNumbers.math_logic) := by
  have h := (claim_C6_amended countFailWithUntrustedNumbers "x" rfl).1 rfl
  exact ⟨rfl, rfl, h.1⟩

/-- C9 counterexample: the claim says a unary minus on a base binds tighter
than the exponent, so `"-a ** b"` would be `(-a) ** b`; but CPython's
grammar gives `**` precedence over a unary operator on its left:
`evaluate("-2 ** 2")` is `-(2 ** 2) = -4`, not `(-2) ** 2 = 4`. -/
theorem claim_C9_counterexample :
    safe_eval_expression "-2 ** 2" = Except.ok (PyNum.int (-4)) ∧
    safe_eval_expression "(-2) ** 2" = Except.ok (PyNum.int 4) ∧
    PyNum.int (-4) ≠ PyNum.int 4 :=
  ⟨rfl, rfl, by decide⟩

/-- C9 (amended): the parser follows CPython's precedence for the
arithmetic fragment: parentheses > `**` > unary `+`/`-` > `*`,`/`,`//`,`%`
> `+`,`-`, left-associative within a level except `**`, which is
right-associative; `**` binds more tightly than a unary operator on its
left (so `-a ** b` parses as `-(a ** b)`), while unary operators are
allowed in the exponent (so `a ** -b` parses as `a ** (-b)`). Stated on
token streams for arbitrary numeric literals, plus string-level instances. -/
theorem claim_C9_amended : ∀ a b c : ℤ,
    parseTokens [Token.minus, Token.num (.int a), Token.dstar, Token.num (.int b)] =
      some (Ast.unaryOp .usub (Ast.binOp .pow (Ast.const (.int a)) (Ast.const (.int b)))) ∧
    parseTokens [Token.num (.int a), Token.dstar, Token.minus, Token.num (.int b)] =
      some (Ast.binOp .pow (Ast.const (.int a)) (Ast.unaryOp .usub (Ast.const (.int b)))) ∧
    parseTokens [Token.num (.int a), Token.dstar, Token.num (.int b), Token.dstar,
        Token.num (.int c)] =
      some (Ast.binOp .pow (Ast.const (.int a))
        (Ast.binOp .pow (Ast.const (.int b)) (Ast.const (.int c)))) ∧
    parseTokens [Token.num (.int a), Token.minus, Token.num (.int b), Token.minus,
        Token.num (.int c)] =
      some (Ast.binOp .sub (Ast.binOp .sub (Ast.const (.int a)) (Ast.const (.int b)))
        (Ast.const (.int c))) ∧
    parseTokens [Token.num (.int a), Token.plus, Token.num (.int b), Token.star,
        Token.num (.int c)] =
      some (Ast.binOp .add (Ast.const (.int a))
        (Ast.binOp .mul (Ast.const (.int b)) (Ast.const (.int c)))) ∧
    parseTokens [Token.num (.int a), Token.star, Token.num (.int b), Token.dstar,
        Token.num (.int c)] =
      some (Ast.binOp .mul (Ast.const (.int a))
        (Ast.binOp .pow (Ast.const (.int b)) (Ast.const (.int c)))) ∧
    parseTokens [Token.lparen, Token.num (.int a), Token.plus, Token.num (.int b),
        Token.rparen, Token.star, Token.num (.int c)] =
      some (Ast.binOp .mul (Ast.binOp .add (Ast.const (.int a)) (Ast.const (.int b)))
        (Ast.const (.int c))) ∧
    parseTokens [Token.num (.int a), Token.slash, Token.num (.int b), Token.percent,
        Token.num (.int c)] =
      some (Ast.binOp .mod (Ast.binOp .div (Ast.const (.int a)) (Ast.const (.int b)))
        (Ast.const (.int c))) ∧
    safe_eval_expression "2 ** 3 ** 2" = Except.ok (PyNum.int 512) ∧
    safe_eval_expression "2 ** -1" = Except.ok (PyNum.float (1/2)) ∧
    safe_eval_expression "900 + 500 / 2" = Except.ok (PyNum.float 1150) ∧
    safe_eval_expression "12 * 3 - 4" = Except.ok (PyNum.int 32) :=
  fun a b c => ⟨rfl, rfl, rfl, rfl, rfl, rfl, rfl, rfl, rfl, rfl, rfl, rfl⟩

end NumberBot
